import Mathlib

/-!
# Verification of the Bilibili videos widget (glance_cn)

Shallow embedding of `internal/glance/widget-videos-bilibili.go` (the current
version of the file: the one carrying `bilibiliVideoList.sortByView` and the
per-video `Stats`/`Danmaku` fields).  The embedding models:

* the data model (`videoBilibili`, `bilibiliFeedResponseJson`, the widget struct);
* the endpoint resolver `getBilibiliFeedURL`, with the current time injected as
  an explicit Unix-seconds parameter (the Go code reads `time.Now()` inside);
* the aggregation pipeline `fetchBilibiliClassifyUploads`, with the per-category
  results of the worker pool supplied as an explicit index-aligned list of
  `Except` values (network and JSON decoding happen outside this component);
* the widget lifecycle operations `initialize` and `update`.

Go `int`/`int64` values are modelled as `Int`.  Go's `sort.Slice` with the
comparator `v[i].Views > v[j].Views` is an unspecified comparison sort; it is
modelled as `List.insertionSort` with the reflexive descending-views relation,
which produces the same multiset sorted the same way (they can differ only in
the order of entries with equal view counts, which the comparator leaves
unspecified).
-/

/-- One normalized video record (`videoBilibili` in the source).  The Go struct
has `Views`/`Danmaku` as `int64` and a `Desc` field that the fetch path never
sets (it keeps its zero value `""`). -/
structure videoBilibili where
  ThumbnailUrl : String
  Title : String
  Url : String
  Author : String
  AuthorUrl : String
  Views : Int
  Danmaku : Int
  Desc : String
deriving Repr, DecidableEq

/-- `type bilibiliVideoList []videoBilibili` -/
abbrev bilibiliVideoList := List videoBilibili

/-- The `Owner` sub-object of one feed entry (`mid`, `name`). -/
structure bilibiliOwnerJson where
  Mid : Int
  Name : String
deriving Repr, DecidableEq

/-- The `Stats` sub-object of one feed entry (`view`, `danmaku`). -/
structure bilibiliStatsJson where
  View : Int
  Danmaku : Int
deriving Repr, DecidableEq

/-- One entry of the decoded feed payload (`Data.List[j]` in the source). -/
structure bilibiliFeedEntryJson where
  Pic : String
  Title : String
  Bvid : String
  Owner : bilibiliOwnerJson
  Stats : bilibiliStatsJson
deriving Repr, DecidableEq

/-- The `Data` wrapper of the feed payload. -/
structure bilibiliFeedDataJson where
  List : List bilibiliFeedEntryJson
deriving Repr, DecidableEq

/-- `bilibiliFeedResponseJson`: the decoded JSON payload of one category fetch. -/
structure bilibiliFeedResponseJson where
  Data : bilibiliFeedDataJson
deriving Repr, DecidableEq

/-- The ordering used by `sortByView`: descending view count.  The Go comparator
is the strict `v[i].Views > v[j].Views`; a list is sorted for that comparator
iff it is pairwise `bilibiliViewGE`. -/
def bilibiliViewGE (a b : videoBilibili) : Prop := b.Views ≤ a.Views

instance : DecidableRel bilibiliViewGE := fun a b =>
  inferInstanceAs (Decidable (b.Views ≤ a.Views))

instance : IsTotal videoBilibili bilibiliViewGE :=
  ⟨fun a b => le_total b.Views a.Views⟩

instance : IsTrans videoBilibili bilibiliViewGE :=
  ⟨fun _ _ _ hab hbc => le_trans hbc hab⟩

/-- `func (v bilibiliVideoList) sortByView() bilibiliVideoList`: sorts the list
by view count, descending. -/
def bilibiliVideoList.sortByView (v : bilibiliVideoList) : bilibiliVideoList :=
  List.insertionSort bilibiliViewGE v

/-- Unix timestamp of `time.Date(2019, time.March, 22, 0, 0, 0, 0, time.UTC)`,
the fixed reference date of the "weekly" period index. -/
def bilibiliWeeklyEpoch : Int := 1553212800

/-- `getBilibiliFeedURL`: maps a category keyword to the request URL.  The Go
function reads `time.Now()` internally; here the current Unix time (seconds) is
the explicit parameter `now`, matching the spec contract
`resolve(category, nowUnix)`.  The "weekly" branch computes
`days := int(duration.Hours() / 24); period := days / 7` — whole days since the
reference date, then whole weeks; Go's float64 `Hours()/24` followed by `int`
truncation and Go's truncating integer division are modelled by `Int.tdiv`
(truncation towards zero). -/
def getBilibiliFeedURL (classify : String) (now : Int) : String :=
  let wts := now
  if classify = "all" then
    "https://api.bilibili.com/x/web-interface/popular?ps=20&pn=1&wts=" ++ toString wts
  else if classify = "weekly" then
    let days := (now - bilibiliWeeklyEpoch).tdiv 86400
    let period := days.tdiv 7
    "https://api.bilibili.com/x/web-interface/popular/series/one?number=" ++ toString period
      ++ "&wts=" ++ toString wts
  else if classify = "history" then
    "https://api.bilibili.com/x/web-interface/popular/precious?page_size=100&page=1&wts="
      ++ toString wts
  else
    "https://api.bilibili.com/x/web-interface/ranking/v2?rid=0&type=all&wts=" ++ toString wts

/-- The worker pool hands back, for each submitted category, either a decoded
payload or an error (`responses[i]` / `errs[i]` in the source, index-aligned
with `classify`).  Exactly one of the two is set, so one slot is one `Except`. -/
abbrev bilibiliFetchOutcome := Except String bilibiliFeedResponseJson

/-- Whether a worker pool slot is a failed category (`errs[i] != nil`). -/
def isErrOutcome : bilibiliFetchOutcome → Bool
  | Except.error _ => true
  | Except.ok _ => false

/-- The per-entry field mapping of the merge loop in
`fetchBilibiliClassifyUploads`: builds one `videoBilibili` from one decoded
feed entry.  `Url` and `AuthorUrl` are the `fmt.Sprintf` derivations from
`Bvid` and `Owner.Mid`; `Desc` is never assigned (zero value). -/
def bilibiliEntryToVideo (v : bilibiliFeedEntryJson) : videoBilibili :=
  { ThumbnailUrl := v.Pic
    Title := v.Title
    Url := "https://www.bilibili.com/video/" ++ v.Bvid
    Author := v.Owner.Name
    AuthorUrl := "https://space.bilibili.com/" ++ toString v.Owner.Mid
    Views := v.Stats.View
    Danmaku := v.Stats.Danmaku
    Desc := "" }

/-- The merge loop of `fetchBilibiliClassifyUploads` (`for i := range responses`):
walks the index-aligned outcomes; a failed slot increments `failed`, a
successful slot appends all of its entries (mapped to `videoBilibili`) to the
merged list.  Returns `(videos, failed)`. -/
def mergeBilibiliResponses : List bilibiliFetchOutcome → bilibiliVideoList × Nat
  | [] => ([], 0)
  | Except.error _ :: rest =>
      ((mergeBilibiliResponses rest).1, (mergeBilibiliResponses rest).2 + 1)
  | Except.ok r :: rest =>
      (r.Data.List.map bilibiliEntryToVideo ++ (mergeBilibiliResponses rest).1,
        (mergeBilibiliResponses rest).2)

/-- The Go `error` values `fetchBilibiliClassifyUploads` can return:
`errNoContent`, or `errPartialContent` wrapped with the failed-category count
(`"missing videos from %d channels"`). -/
inductive fetchError where
  | errNoContent
  | errPartialContent (failed : Nat)
deriving Repr, DecidableEq

/-- `fetchBilibiliClassifyUploads`: the aggregator.  The network part (request
construction from `getBilibiliFeedURL`, worker pool with 30 workers, JSON
decoding) is outside this component; its index-aligned per-category results
enter as `outcomes`.  (The early `workerPoolDo` setup-error return is not
modelled: the worker pool contract of spec §4.2 always yields the two aligned
lists.)  After the merge loop: an empty merged list returns
`(nil, errNoContent)`; otherwise the list is sorted by views and returned with
`errPartialContent(failed)` when `failed > 0`, or no error.
`videoUrlTemplate` and `includeShorts` are parameters of the Go function that
its body never reads. -/
def fetchBilibiliClassifyUploads (classify : List String) (videoUrlTemplate : String)
    (includeShorts : Bool) (outcomes : List bilibiliFetchOutcome) :
    bilibiliVideoList × Option fetchError :=
  let merged := mergeBilibiliResponses outcomes
  if merged.1.length = 0 then
    ([], some fetchError.errNoContent)
  else if merged.2 > 0 then
    (bilibiliVideoList.sortByView merged.1, some (fetchError.errPartialContent merged.2))
  else
    (bilibiliVideoList.sortByView merged.1, none)

/-- `videosBilibiliWidget`: the widget configuration and its stored result.
The embedded `widgetBase` (title, cache duration, error bookkeeping) is outside
the fields the claims touch and is not modelled. -/
structure videosBilibiliWidget where
  Videos : bilibiliVideoList
  VideoUrlTemplate : String
  Style : String
  CollapseAfter : Int
  CollapseAfterRows : Int
  Classify : List String
  Limit : Int
  IncludeShorts : Bool
deriving Repr, DecidableEq

/-- `initialize`: applies the configuration defaults.  (The Go method also sets
the title and cache duration on `widgetBase` and always returns `nil`.) -/
def videosBilibiliWidget.initWidget (widget : videosBilibiliWidget) : videosBilibiliWidget :=
  let widget := if widget.Limit ≤ 0 then { widget with Limit := 25 } else widget
  let widget := if widget.CollapseAfterRows = 0 ∨ widget.CollapseAfterRows < -1 then
      { widget with CollapseAfterRows := 4 } else widget
  if widget.CollapseAfter = 0 ∨ widget.CollapseAfter < -1 then
      { widget with CollapseAfter := 7 } else widget

/-- Modelled from the spec: `canContinueUpdateAfterHandlingErr` lives on
`widgetBase` in the surrounding widget framework, whose source is not part of
this repository.  Spec §4.5/§7: an Empty (NoContent) outcome makes the update
stop without touching the stored result (non-fatal); a Partial outcome is a
warning and the update proceeds; no error means the update proceeds. -/
def canContinueUpdateAfterHandlingErr : Option fetchError → Bool
  | none => true
  | some (fetchError.errPartialContent _) => true
  | some fetchError.errNoContent => false

/-- `update`: one refresh cycle.  Fetches (the worker pool results entering as
`outcomes`), stops early when the error handler says so, otherwise truncates
the list to `Limit` (`videos = videos[:widget.Limit]` when
`len(videos) > widget.Limit`) and stores it. -/
def videosBilibiliWidget.update (widget : videosBilibiliWidget)
    (outcomes : List bilibiliFetchOutcome) : videosBilibiliWidget :=
  let fr := fetchBilibiliClassifyUploads widget.Classify widget.VideoUrlTemplate
      widget.IncludeShorts outcomes
  if canContinueUpdateAfterHandlingErr fr.2 = false then
    widget
  else
    let videos := if widget.Limit < (fr.1.length : Int) then
        fr.1.take widget.Limit.toNat else fr.1
    { widget with Videos := videos }

/-! ## Helper lemmas about the merge loop and the sort -/

/-- The failure counter of the merge loop counts exactly the failed slots. -/
theorem mergeBilibiliResponses_count (outcomes : List bilibiliFetchOutcome) :
    (mergeBilibiliResponses outcomes).2 = outcomes.countP isErrOutcome := by
  induction outcomes with
  | nil => rfl
  | cons o rest ih =>
      cases o <;> simp [mergeBilibiliResponses, List.countP_cons, isErrOutcome, ih]

/-- Every merged video comes from the entry list of some successful slot. -/
theorem mergeBilibiliResponses_mem {outcomes : List bilibiliFetchOutcome}
    {v : videoBilibili} (hv : v ∈ (mergeBilibiliResponses outcomes).1) :
    ∃ r : bilibiliFeedResponseJson, Except.ok r ∈ outcomes ∧
      v ∈ r.Data.List.map bilibiliEntryToVideo := by
  induction outcomes with
  | nil => simp [mergeBilibiliResponses] at hv
  | cons o rest ih =>
      cases o with
      | error e =>
          obtain ⟨r, hr, hvr⟩ := ih hv
          exact ⟨r, List.mem_cons_of_mem _ hr, hvr⟩
      | ok r0 =>
          rcases List.mem_append.mp hv with h | h
          · exact ⟨r0, List.mem_cons_self _ _, h⟩
          · obtain ⟨r, hr, hvr⟩ := ih h
            exact ⟨r, List.mem_cons_of_mem _ hr, hvr⟩

/-- A successful slot with an empty entry list is invisible to the merge loop. -/
theorem mergeBilibiliResponses_skip_empty (pre post : List bilibiliFetchOutcome)
    (r : bilibiliFeedResponseJson) (h : r.Data.List = []) :
    mergeBilibiliResponses (pre ++ Except.ok r :: post)
      = mergeBilibiliResponses (pre ++ post) := by
  induction pre with
  | nil => simp [mergeBilibiliResponses, h]
  | cons o rest ih => cases o <;> simp [mergeBilibiliResponses, ih]

/-- `sortByView` output is pairwise descending in view count. -/
theorem sortByView_sorted (v : bilibiliVideoList) :
    List.Sorted bilibiliViewGE (bilibiliVideoList.sortByView v) :=
  List.sorted_insertionSort bilibiliViewGE v

/-- `sortByView` permutes its input (sorting is in place in Go). -/
theorem sortByView_perm (v : bilibiliVideoList) :
    List.Perm (bilibiliVideoList.sortByView v) v :=
  List.perm_insertionSort bilibiliViewGE v

/-- Appending the same string on the right is injective. -/
theorem string_append_cancel_right {a b c : String} (h : a ++ c = b ++ c) : a = b := by
  have hd : a.data ++ c.data = b.data ++ c.data := by
    simpa [String.data_append] using congrArg String.data h
  exact String.ext (List.append_cancel_right hd)

/-! ## Concrete sample data used by the witnesses -/

/-- A decoded feed entry with view count 5. -/
def sampleEntryA : bilibiliFeedEntryJson :=
  { Pic := "picA", Title := "titleA", Bvid := "BV1A", Owner := { Mid := 11, Name := "authorA" },
    Stats := { View := 5, Danmaku := 2 } }

/-- A decoded feed entry with view count 42. -/
def sampleEntryB : bilibiliFeedEntryJson :=
  { Pic := "picB", Title := "titleB", Bvid := "BV1B", Owner := { Mid := 22, Name := "authorB" },
    Stats := { View := 42, Danmaku := 3 } }

/-- A decoded feed entry with view count 17. -/
def sampleEntryC : bilibiliFeedEntryJson :=
  { Pic := "picC", Title := "titleC", Bvid := "BV1C", Owner := { Mid := 33, Name := "authorC" },
    Stats := { View := 17, Danmaku := 4 } }

/-- A successful payload carrying three entries. -/
def sampleBilibiliResp : bilibiliFeedResponseJson :=
  { Data := { List := [sampleEntryA, sampleEntryB, sampleEntryC] } }

/-- A successful payload whose entry list is empty. -/
def emptyBilibiliResp : bilibiliFeedResponseJson := { Data := { List := [] } }

/-- A widget configuration as it looks after `initialize` (positive limit). -/
def sampleWidget : videosBilibiliWidget :=
  { Videos := [], VideoUrlTemplate := "", Style := "", CollapseAfter := 7,
    CollapseAfterRows := 4, Classify := ["all"], Limit := 2, IncludeShorts := false }

/-! ## Claim theorems -/

/-- C2: whenever the merged list is empty after processing all per-category
outcomes, `fetchBilibiliClassifyUploads` returns `(nil, errNoContent)` —
regardless of how many categories failed, Empty takes priority over Partial. -/
theorem fetch_empty_merge_noContent (classify : List String) (u : String) (b : Bool)
    (outcomes : List bilibiliFetchOutcome)
    (h : (mergeBilibiliResponses outcomes).1 = []) :
    fetchBilibiliClassifyUploads classify u b outcomes
      = ([], some fetchError.errNoContent) := by
  simp [fetchBilibiliClassifyUploads, h]

/-- Witness for C2: one failed category and one succeeding category with zero
entries still yield the Empty outcome (failure count 1 notwithstanding). -/
theorem fetch_empty_merge_noContent_witness :
    fetchBilibiliClassifyUploads ["all", "weekly"] "" false
        [Except.error "network error", Except.ok emptyBilibiliResp]
      = ([], some fetchError.errNoContent) :=
  fetch_empty_merge_noContent ["all", "weekly"] "" false
    [Except.error "network error", Except.ok emptyBilibiliResp] (by decide)

/-- C3: when exactly `k` categories fail, `1 ≤ k < N`, and the successes
contribute at least one entry, the result is the Partial outcome
`errPartialContent k`, and the returned list is a permutation of the merged
list whose every element comes from a succeeding category's payload. -/
theorem fetch_partial_outcome (classify : List String) (u : String) (b : Bool)
    (outcomes : List bilibiliFetchOutcome) (k : Nat)
    (hk : outcomes.countP isErrOutcome = k) (h1 : 1 ≤ k) (hN : k < outcomes.length)
    (hne : (mergeBilibiliResponses outcomes).1 ≠ []) :
    (fetchBilibiliClassifyUploads classify u b outcomes).2
        = some (fetchError.errPartialContent k)
      ∧ List.Perm (fetchBilibiliClassifyUploads classify u b outcomes).1
          (mergeBilibiliResponses outcomes).1
      ∧ ∀ v ∈ (fetchBilibiliClassifyUploads classify u b outcomes).1,
          ∃ r : bilibiliFeedResponseJson, Except.ok r ∈ outcomes ∧
            v ∈ r.Data.List.map bilibiliEntryToVideo := by
  have hc : (mergeBilibiliResponses outcomes).2 = k := by
    rw [mergeBilibiliResponses_count, hk]
  have hlen : (mergeBilibiliResponses outcomes).1.length ≠ 0 := by
    simpa [List.length_eq_zero] using hne
  have hpos : 0 < (mergeBilibiliResponses outcomes).2 := hc ▸ h1
  have hfetch : fetchBilibiliClassifyUploads classify u b outcomes
      = (bilibiliVideoList.sortByView (mergeBilibiliResponses outcomes).1,
          some (fetchError.errPartialContent k)) := by
    simp [fetchBilibiliClassifyUploads, hlen, hpos, hc]
    omega
  refine ⟨by rw [hfetch], by rw [hfetch]; exact sortByView_perm _, ?_⟩
  intro v hv
  rw [hfetch] at hv
  exact mergeBilibiliResponses_mem ((sortByView_perm _).subset hv)

/-- Witness for C3: 1 of 2 categories fails, the other carries three entries;
the outcome is Partial(1) and every returned video comes from the success. -/
theorem fetch_partial_outcome_witness :
    (fetchBilibiliClassifyUploads ["all", "weekly"] "" false
        [Except.error "network error", Except.ok sampleBilibiliResp]).2
        = some (fetchError.errPartialContent 1)
      ∧ List.Perm (fetchBilibiliClassifyUploads ["all", "weekly"] "" false
          [Except.error "network error", Except.ok sampleBilibiliResp]).1
          (mergeBilibiliResponses
            [Except.error "network error", Except.ok sampleBilibiliResp]).1
      ∧ ∀ v ∈ (fetchBilibiliClassifyUploads ["all", "weekly"] "" false
            [Except.error "network error", Except.ok sampleBilibiliResp]).1,
          ∃ r : bilibiliFeedResponseJson,
            Except.ok r ∈ [Except.error "network error", Except.ok sampleBilibiliResp] ∧
            v ∈ r.Data.List.map bilibiliEntryToVideo :=
  fetch_partial_outcome ["all", "weekly"] "" false
    [Except.error "network error", Except.ok sampleBilibiliResp] 1
    (by decide) (by decide) (by decide) (by decide)

/-- C4: when the refresh outcome is Empty (`errNoContent`), `update` leaves the
widget — in particular its stored `Videos` — entirely unchanged.  The error
handler `canContinueUpdateAfterHandlingErr` is modelled from the spec (its
source lives in the surrounding widget framework). -/
theorem update_empty_outcome_keeps_stored (w : videosBilibiliWidget)
    (outcomes : List bilibiliFetchOutcome)
    (h : (fetchBilibiliClassifyUploads w.Classify w.VideoUrlTemplate w.IncludeShorts
        outcomes).2 = some fetchError.errNoContent) :
    videosBilibiliWidget.update w outcomes = w := by
  simp [videosBilibiliWidget.update, h, canContinueUpdateAfterHandlingErr]

/-- Witness for C4: a cycle in which the only category fails leaves the widget
unchanged. -/
theorem update_empty_outcome_keeps_stored_witness :
    videosBilibiliWidget.update sampleWidget [Except.error "network error"] = sampleWidget :=
  update_empty_outcome_keeps_stored sampleWidget [Except.error "network error"] (by decide)

/-- C5: a category that succeeds but returns zero entries is not a failure: it
neither increments the failure counter nor affects the fetch result at all. -/
theorem fetch_ok_empty_category_not_failure (classify : List String) (u : String) (b : Bool)
    (pre post : List bilibiliFetchOutcome) (r : bilibiliFeedResponseJson)
    (h : r.Data.List = []) :
    (mergeBilibiliResponses (pre ++ Except.ok r :: post)).2
        = (mergeBilibiliResponses (pre ++ post)).2
      ∧ fetchBilibiliClassifyUploads classify u b (pre ++ Except.ok r :: post)
        = fetchBilibiliClassifyUploads classify u b (pre ++ post) := by
  have hm := mergeBilibiliResponses_skip_empty pre post r h
  exact ⟨by rw [hm], by simp [fetchBilibiliClassifyUploads, hm]⟩

/-- Witness for C5: inserting a zero-entry success between a failure and a
success changes neither the failure count nor the result. -/
theorem fetch_ok_empty_category_not_failure_witness :
    (mergeBilibiliResponses [Except.error "network error", Except.ok emptyBilibiliResp,
        Except.ok sampleBilibiliResp]).2
      = (mergeBilibiliResponses [Except.error "network error",
          Except.ok sampleBilibiliResp]).2
    ∧ fetchBilibiliClassifyUploads ["all", "weekly", "history"] "" false
        [Except.error "network error", Except.ok emptyBilibiliResp,
          Except.ok sampleBilibiliResp]
      = fetchBilibiliClassifyUploads ["all", "weekly", "history"] "" false
        [Except.error "network error", Except.ok sampleBilibiliResp] :=
  fetch_ok_empty_category_not_failure ["all", "weekly", "history"] "" false
    [Except.error "network error"] [Except.ok sampleBilibiliResp] emptyBilibiliResp
    (by decide)

/-- C6: `initialize` replaces `Limit ≤ 0` with 25, replaces each collapse
threshold that is `0` or `< -1` with its default (4 rows, 7 items), and — since
`-1` satisfies neither condition — preserves a threshold of exactly `-1`. -/
theorem initialize_defaults (w : videosBilibiliWidget) :
    (videosBilibiliWidget.initWidget w).Limit = (if w.Limit ≤ 0 then 25 else w.Limit)
    ∧ (videosBilibiliWidget.initWidget w).CollapseAfterRows
        = (if w.CollapseAfterRows = 0 ∨ w.CollapseAfterRows < -1 then 4
            else w.CollapseAfterRows)
    ∧ (videosBilibiliWidget.initWidget w).CollapseAfter
        = (if w.CollapseAfter = 0 ∨ w.CollapseAfter < -1 then 7 else w.CollapseAfter) := by
  by_cases h1 : w.Limit ≤ 0 <;>
    by_cases h2 : w.CollapseAfterRows = 0 ∨ w.CollapseAfterRows < -1 <;>
      by_cases h3 : w.CollapseAfter = 0 ∨ w.CollapseAfter < -1 <;>
        simp [videosBilibiliWidget.initWidget, h1, h2, h3]

/-- C9: any category keyword other than the three known ones resolves to the
default "ranking" endpoint; the resolver is total and never errors. -/
theorem getBilibiliFeedURL_default_fallback (classify : String) (now : Int)
    (h1 : classify ≠ "all") (h2 : classify ≠ "weekly") (h3 : classify ≠ "history") :
    getBilibiliFeedURL classify now
      = "https://api.bilibili.com/x/web-interface/ranking/v2?rid=0&type=all&wts="
          ++ toString now := by
  simp [getBilibiliFeedURL, h1, h2, h3]

/-- Witness for C9: the unrecognized keyword "hot" falls back to the ranking
endpoint. -/
theorem getBilibiliFeedURL_default_fallback_witness :
    getBilibiliFeedURL "hot" 1742301628
      = "https://api.bilibili.com/x/web-interface/ranking/v2?rid=0&type=all&wts="
          ++ toString (1742301628 : Int) :=
  getBilibiliFeedURL_default_fallback "hot" 1742301628 (by decide) (by decide) (by decide)

/-- C10: `videoUrlTemplate` and `includeShorts` are dead parameters of
`fetchBilibiliClassifyUploads`: varying either (or both) changes neither the
returned video list nor the returned error. -/
theorem fetch_ignores_template_and_shorts (classify : List String) (u1 u2 : String)
    (b1 b2 : Bool) (outcomes : List bilibiliFetchOutcome) :
    fetchBilibiliClassifyUploads classify u1 b1 outcomes
      = fetchBilibiliClassifyUploads classify u2 b2 outcomes := rfl

/-- C1 counterexample: a non-empty category list in which every fetch succeeds
can still produce the Empty outcome (`errNoContent`) rather than Complete,
namely when every succeeding payload carries zero entries — here the single
category "all" succeeds with an empty entry list, yet the error is
`errNoContent`, not `none`. -/
theorem fetch_all_success_not_always_complete :
    (fetchBilibiliClassifyUploads ["all"] "" false [Except.ok emptyBilibiliResp]).2
      = some fetchError.errNoContent := by decide

/-- C1 (amended: the successes must contribute at least one entry in total):
when every per-category outcome succeeds and the merged list is non-empty, the
fetch error is `none` (Complete), the fetched list is sorted by view count
descending, and after `update` applies the limit the stored list is still
sorted and holds at most `Limit` entries. -/
theorem fetch_update_all_success_sorted_limited (w : videosBilibiliWidget)
    (outcomes : List bilibiliFetchOutcome)
    (hok : ∀ o ∈ outcomes, isErrOutcome o = false)
    (hne : (mergeBilibiliResponses outcomes).1 ≠ [])
    (hlim : 0 ≤ w.Limit) :
    (fetchBilibiliClassifyUploads w.Classify w.VideoUrlTemplate w.IncludeShorts
        outcomes).2 = none
    ∧ List.Sorted bilibiliViewGE
        (fetchBilibiliClassifyUploads w.Classify w.VideoUrlTemplate w.IncludeShorts
          outcomes).1
    ∧ List.Sorted bilibiliViewGE (videosBilibiliWidget.update w outcomes).Videos
    ∧ ((videosBilibiliWidget.update w outcomes).Videos.length : Int) ≤ w.Limit := by
  have hfail : (mergeBilibiliResponses outcomes).2 = 0 := by
    rw [mergeBilibiliResponses_count]
    exact List.countP_eq_zero.mpr (fun a ha => by simp [hok a ha])
  have hlen : (mergeBilibiliResponses outcomes).1.length ≠ 0 := by
    simpa [List.length_eq_zero] using hne
  have hfetch : fetchBilibiliClassifyUploads w.Classify w.VideoUrlTemplate w.IncludeShorts
      outcomes = (bilibiliVideoList.sortByView (mergeBilibiliResponses outcomes).1, none) := by
    simp [fetchBilibiliClassifyUploads, hlen, hfail]
  have hupd : (videosBilibiliWidget.update w outcomes).Videos
      = (if w.Limit < ((bilibiliVideoList.sortByView
            (mergeBilibiliResponses outcomes).1).length : Int) then
          List.take w.Limit.toNat
            (bilibiliVideoList.sortByView (mergeBilibiliResponses outcomes).1)
        else bilibiliVideoList.sortByView (mergeBilibiliResponses outcomes).1) := by
    simp [videosBilibiliWidget.update, hfetch, canContinueUpdateAfterHandlingErr]
  refine ⟨by rw [hfetch], by rw [hfetch]; exact sortByView_sorted _, ?_, ?_⟩
  · rw [hupd]
    by_cases hc : w.Limit < ((bilibiliVideoList.sortByView
        (mergeBilibiliResponses outcomes).1).length : Int)
    · simpa [hc] using
        List.Pairwise.sublist (List.take_sublist _ _) (sortByView_sorted _)
    · simpa [hc] using sortByView_sorted (mergeBilibiliResponses outcomes).1
  · rw [hupd]
    by_cases hc : w.Limit < ((bilibiliVideoList.sortByView
        (mergeBilibiliResponses outcomes).1).length : Int)
    · have hmin : (List.take w.Limit.toNat
          (bilibiliVideoList.sortByView (mergeBilibiliResponses outcomes).1)).length
            ≤ w.Limit.toNat := by
        simp
      have hcast : ((w.Limit.toNat : Int)) = w.Limit := Int.toNat_of_nonneg hlim
      simp only [hc, if_true]
      calc ((List.take w.Limit.toNat
              (bilibiliVideoList.sortByView (mergeBilibiliResponses outcomes).1)).length : Int)
          ≤ (w.Limit.toNat : Int) := by exact_mod_cast hmin
        _ = w.Limit := hcast
    · simpa [hc] using le_of_not_lt hc

/-- Witness for C1 (amended): one succeeding category with entries of views
5, 42, 17 and a limit of 2 — Complete outcome, stored list sorted descending,
at most 2 entries. -/
theorem fetch_update_all_success_sorted_limited_witness :
    (fetchBilibiliClassifyUploads sampleWidget.Classify sampleWidget.VideoUrlTemplate
        sampleWidget.IncludeShorts [Except.ok sampleBilibiliResp]).2 = none
    ∧ List.Sorted bilibiliViewGE
        (fetchBilibiliClassifyUploads sampleWidget.Classify sampleWidget.VideoUrlTemplate
          sampleWidget.IncludeShorts [Except.ok sampleBilibiliResp]).1
    ∧ List.Sorted bilibiliViewGE
        (videosBilibiliWidget.update sampleWidget [Except.ok sampleBilibiliResp]).Videos
    ∧ (((videosBilibiliWidget.update sampleWidget
          [Except.ok sampleBilibiliResp]).Videos.length : Int)) ≤ sampleWidget.Limit :=
  fetch_update_all_success_sorted_limited sampleWidget [Except.ok sampleBilibiliResp]
    (by decide) (by decide) (by decide)

/-- C7 counterexample: for the "weekly" category, two resolutions at different
timestamps do not differ only in the cache-busting `wts` parameter — the
period index embedded before it changes as well, so no fixed string `p` has
`resolve("weekly", t) = p ++ toString t` for all `t` (at `t = 1553212800` the
URL embeds `number=0`, one week later it embeds `number=1`). -/
theorem getBilibiliFeedURL_weekly_not_only_wts :
    ¬ ∃ p : String, ∀ t : Int, getBilibiliFeedURL "weekly" t = p ++ toString t := by
  rintro ⟨p, hp⟩
  have h1 := hp 1553212800
  have h2 := hp 1553817600
  have e1 : getBilibiliFeedURL "weekly" 1553212800
      = "https://api.bilibili.com/x/web-interface/popular/series/one?number=0&wts="
        ++ toString (1553212800 : Int) := by decide
  have e2 : getBilibiliFeedURL "weekly" 1553817600
      = "https://api.bilibili.com/x/web-interface/popular/series/one?number=1&wts="
        ++ toString (1553817600 : Int) := by decide
  rw [e1] at h1
  rw [e2] at h2
  have c1 := string_append_cancel_right h1
  have c2 := string_append_cancel_right h2
  exact absurd (c1.trans c2.symm) (by decide)

/-- C7 (amended: restricted to the categories other than "weekly"; the
resolver is a pure function of (category, timestamp), and for "all",
"history" and the default "ranking" fallback two resolutions with different
timestamps differ only in the cache-busting `wts` value — the "weekly" URL
additionally varies in its period index). -/
theorem getBilibiliFeedURL_nonweekly_wts_only (classify : String)
    (h : classify ≠ "weekly") :
    ∃ p : String, ∀ t : Int, getBilibiliFeedURL classify t = p ++ toString t := by
  by_cases h1 : classify = "all"
  · exact ⟨"https://api.bilibili.com/x/web-interface/popular?ps=20&pn=1&wts=",
      fun t => by simp [getBilibiliFeedURL, h1]⟩
  · by_cases h3 : classify = "history"
    · exact ⟨"https://api.bilibili.com/x/web-interface/popular/precious?page_size=100&page=1&wts=",
        fun t => by simp [getBilibiliFeedURL, h1, h, h3]⟩
    · exact ⟨"https://api.bilibili.com/x/web-interface/ranking/v2?rid=0&type=all&wts=",
        fun t => by simp [getBilibiliFeedURL, h1, h, h3]⟩

/-- Witness for C7 (amended): the "history" category's URL is a fixed stem
followed by the timestamp. -/
theorem getBilibiliFeedURL_nonweekly_wts_only_witness :
    ∃ p : String, ∀ t : Int, getBilibiliFeedURL "history" t = p ++ toString t :=
  getBilibiliFeedURL_nonweekly_wts_only "history" (by decide)

/-- C8: for the "weekly" category, at any current Unix time at or after the
fixed reference date 2019-03-22 00:00:00 UTC, the resolved URL embeds the
period index `(now - epoch) / 604800` — the integer number of whole 7-day
periods (604800 seconds) elapsed since the reference date, as floor division.
(The Go code computes whole days via `int(duration.Hours() / 24)` and then
whole weeks via `days / 7`; for elapsed times of whole seconds these agree
with the single floor division by 604800, which the nested `Int.tdiv` of the
model makes exact.) -/
theorem getBilibiliFeedURL_weekly_period_index (now : Int)
    (h : bilibiliWeeklyEpoch ≤ now) :
    getBilibiliFeedURL "weekly" now
      = "https://api.bilibili.com/x/web-interface/popular/series/one?number="
          ++ toString ((now - bilibiliWeeklyEpoch) / 604800)
          ++ "&wts=" ++ toString now := by
  have hx : 0 ≤ now - bilibiliWeeklyEpoch := sub_nonneg.mpr h
  have hdiv : ((now - bilibiliWeeklyEpoch).tdiv 86400).tdiv 7
      = (now - bilibiliWeeklyEpoch) / 604800 := by
    rw [Int.tdiv_eq_ediv hx (by omega),
      Int.tdiv_eq_ediv (Int.ediv_nonneg hx (by omega)) (by omega)]
    omega
  simp [getBilibiliFeedURL, hdiv]

/-- Witness for C8: at the sample timestamp 1742227080 appearing in the source
comments, the weekly URL embeds period index 312 (the comments record
`number=312&wts=1742227080`). -/
theorem getBilibiliFeedURL_weekly_period_index_witness :
    getBilibiliFeedURL "weekly" 1742227080
      = "https://api.bilibili.com/x/web-interface/popular/series/one?number="
          ++ toString (((1742227080 : Int) - bilibiliWeeklyEpoch) / 604800)
          ++ "&wts=" ++ toString (1742227080 : Int) :=
  getBilibiliFeedURL_weekly_period_index 1742227080 (by decide)
